import Mathlib

/-!
Verification of the BachAI batch-orchestration core against its
natural-language specification.  The definitions below are a shallow
embedding of the Python source: statuses become inductive types, database
rows become structures, SQLAlchemy sessions become explicit lists of
records, wall-clock times become natural numbers (seconds), and calls to
the remote inference provider or to webhook targets become oracle
parameters describing the observed outcome.
-/

namespace BachAI

/-- Job statuses, from the `status` column of `batch_jobs`
(src/database/models.py) and the string literals used across the
services. -/
inductive JobStatus
  | pending
  | processing
  | translating
  | completed
  | failed
  | cancelled
deriving DecidableEq, Repr

/-- Lot statuses, from the `status` column of `batch_lots` plus the
literal `error` used by `BatchProcessor.create_batch_job` for lots with
no images. -/
inductive LotStatus
  | pending
  | processing
  | completed
  | failed
  | error
deriving DecidableEq, Repr

/-- Webhook delivery statuses (src/database/models.py, `WebhookDelivery`). -/
inductive DeliveryStatus
  | pending
  | delivered
  | failed
deriving DecidableEq, Repr

/-- Remote batch status as reported by the provider
(`OpenAIClient.get_batch_status`). -/
inductive RemoteStatus
  | queued
  | inProgress
  | completed
  | failed
deriving DecidableEq, Repr

/-- Python truthiness of an optional string: `None` and the empty string
are falsy.  Used wherever the source tests a nullable text column with
a bare `if`. -/
def pyTruthy : Option String → Bool
  | some s => s ≠ ""
  | none => false

/-- One `batch_lots` row (src/database/models.py, `BatchLot`).
`translations` is the JSON mapping language code to translated text,
modelled as an association list. -/
structure BatchLot where
  lot_id : String
  image_urls : List String
  status : LotStatus
  vision_result : Option String
  translations : List (String × String)
  error_message : Option String
  missing_images : List String
deriving DecidableEq, Repr

/-- One `batch_jobs` row (src/database/models.py, `BatchJob`) together
with its owned lots.  `openai_batch_id`, `openai_vision_batch_id` and
`openai_translation_batch_id` are the three distinct columns of the
source model. -/
structure Job where
  id : String
  status : JobStatus
  created_at : Nat
  languages : List String
  webhook_url : Option String
  openai_batch_id : Option String
  openai_vision_batch_id : Option String
  openai_translation_batch_id : Option String
  total_lots : Nat
  processed_lots : Nat
  failed_lots : Nat
  error_message : Option String
  lots : List BatchLot
deriving DecidableEq, Repr

/-- One `webhook_deliveries` row (src/database/models.py,
`WebhookDelivery`).  Times are seconds since an arbitrary epoch. -/
structure Delivery where
  job_id : String
  webhook_url : String
  signature : String
  status : DeliveryStatus
  attempt_count : Nat
  next_attempt_at : Option Nat
  last_attempt_at : Option Nat
  delivered_at : Option Nat
  response_status : Option Nat
  response_body : Option String
  error_message : Option String
deriving DecidableEq, Repr

/-! ### Batch result parsing (BatchMonitor._parse_batch_results) -/

/-- A line whose `strip()` is empty, i.e. every character is whitespace;
such lines are skipped by the parsing loop. -/
def isBlankLine (s : String) : Bool := s.data.all Char.isWhitespace

/-- Helper for `parse_batch_results`: walks the JSONL lines, skipping
blank lines and decoding the rest; `none` models the `json.loads`
exception escaping the accumulation loop. -/
def parseLines {R : Type} (decode : String → Option R) : List String → Option (List R)
  | [] => some []
  | l :: ls =>
    if isBlankLine l then parseLines decode ls
    else
      match decode l with
      | none => none
      | some r => (parseLines decode ls).map (fun rs => r :: rs)

/-- Shallow embedding of `BatchMonitor._parse_batch_results`
(src/services/batch_monitor.py).  The downloaded content is given as its
list of lines and `decode` stands for `json.loads` on one line.  The
source accumulates parsed lines inside a single `try` block and returns
`[]` from the `except` handler, so one undecodable non-blank line
discards every previously parsed record. -/
def parse_batch_results {R : Type} (decode : String → Option R)
    (lines : List String) : List R :=
  match parseLines decode lines with
  | some rs => rs
  | none => []

/-- A minimal stand-in for `json.loads` used by the C10 witness: the only
well-formed line is the string 1. -/
def decodeDigitOne : String → Option Nat :=
  fun s => if s = "1" then some 1 else none

/-! ### Webhook delivery state machine (WebhookSender) -/

/-- `WebhookSender._create_delivery_record`: a fresh delivery row with the
column defaults of `WebhookDelivery` (status pending, attempt_count 0)
and `next_attempt_at = datetime.utcnow()`. -/
def create_delivery_record (job_id webhook_url signature : String)
    (now : Nat) : Delivery :=
  { job_id := job_id
    webhook_url := webhook_url
    signature := signature
    status := .pending
    attempt_count := 0
    next_attempt_at := some now
    last_attempt_at := none
    delivered_at := none
    response_status := none
    response_body := none
    error_message := none }

/-- The selection filter of `WebhookSender.process_pending_deliveries`:
status in (pending, failed), `attempt_count < 5`, and
`next_attempt_at <= datetime.utcnow()` (a SQL comparison, false when the
column is NULL). -/
def delivery_selectable (now : Nat) (d : Delivery) : Bool :=
  decide (d.status = .pending ∨ d.status = .failed) &&
  decide (d.attempt_count < 5) &&
  (match d.next_attempt_at with
   | some t => decide (t ≤ now)
   | none => false)

/-- `WebhookSender._update_delivery_status` (duplicated verbatim in
`DatabaseManager.update_webhook_delivery`): records the outcome of one
attempt, increments `attempt_count`, and on a retryable failure
(`attempt_count < 5` after the increment) schedules
`next_attempt_at = now + 2 ** attempt_count` seconds. -/
def update_delivery_status (d : Delivery) (status : DeliveryStatus)
    (now : Nat) (response_status : Option Nat) (response_body : Option String)
    (error_message : Option String) : Delivery :=
  let c := d.attempt_count + 1
  let d1 := { d with
    status := status
    attempt_count := c
    last_attempt_at := some now }
  let d2 :=
    if status = .delivered then { d1 with delivered_at := some now }
    else if status = .failed ∧ c < 5 then
      { d1 with next_attempt_at := some (now + 2 ^ c) }
    else d1
  let d3 :=
    match response_status with
    | some rs => { d2 with response_status := some rs }
    | none => d2
  let d4 :=
    if pyTruthy response_body then { d3 with response_body := response_body }
    else d3
  if pyTruthy error_message then { d4 with error_message := error_message }
  else d4

/-- `WebhookSender._attempt_delivery`: one HTTP POST to the webhook URL.
`outcome` is `some code` for a response with that HTTP status and `none`
for a timeout / connection error / other exception; a 2xx response marks
the delivery `delivered`, everything else marks it `failed`. -/
def attempt_delivery (d : Delivery) (outcome : Option Nat) (body : String)
    (now : Nat) : Delivery :=
  match outcome with
  | some code =>
    if 200 ≤ code ∧ code < 300 then
      update_delivery_status d .delivered now (some code) (some body) none
    else
      update_delivery_status d .failed now (some code) (some body)
        (some ("HTTP " ++ toString code))
  | none =>
    update_delivery_status d .failed now none none (some "Request error")

/-- The delivery states reachable through the `WebhookSender` operations:
a record is created by `send_completion_webhook` (which immediately
attempts the fresh record once), and later re-attempted only when the
`process_pending_deliveries` selection filter admits it. -/
inductive DeliveryReachable : Delivery → Prop
  | create (job_id webhook_url signature : String) (now : Nat) :
      DeliveryReachable (create_delivery_record job_id webhook_url signature now)
  | firstAttempt {d : Delivery} (outcome : Option Nat) (body : String) (now : Nat) :
      DeliveryReachable d → d.attempt_count = 0 →
      DeliveryReachable (attempt_delivery d outcome body now)
  | scheduledAttempt {d : Delivery} (outcome : Option Nat) (body : String) (now : Nat) :
      DeliveryReachable d → delivery_selectable now d = true →
      DeliveryReachable (attempt_delivery d outcome body now)

/-! ### Job creation (BatchProcessor.create_batch_job +
DatabaseManager.create_batch_job) -/

/-- Maximum number of lots per batch (src/config.py, MAX_LINES). -/
def MAX_LINES : Nat := 50000

/-- One entry of the images array of an input lot; `url` is `none` when
the image dict has no url key. -/
structure InputImage where
  url : Option String
deriving DecidableEq, Repr

/-- One element of the request body lots array as consumed by
`BatchProcessor.create_batch_job`. -/
structure InputLot where
  lot_id : Option String
  additional_info : Option String
  images : List InputImage
  webhook : Option String
deriving DecidableEq, Repr

/-- The image-URL extraction of `BatchProcessor.create_batch_job`: keep
each image url that is present and non-empty, in order. -/
def lotImageUrls (lot : InputLot) : List String :=
  lot.images.filterMap (fun img =>
    match img.url with
    | some u => if u = "" then none else some u
    | none => none)

/-- One element of the processed_lots list built by
`BatchProcessor.create_batch_job`: a lot with no usable image URL is
immediately marked error with reason no_images, any other lot is kept
pending with its URLs. -/
structure ProcessedLot where
  lot_id : String
  image_urls : List String
  additional_info : Option String
  webhook : Option String
  status : LotStatus
  error : Option String
  missing_images : List String
deriving DecidableEq, Repr

/-- Processing of the lot at index `i` in
`BatchProcessor.create_batch_job`. -/
def processLot (i : Nat) (lot : InputLot) : ProcessedLot :=
  let urls := lotImageUrls lot
  if urls.isEmpty then
    { lot_id := lot.lot_id.getD ("unknown_" ++ toString i)
      image_urls := []
      additional_info := none
      webhook := lot.webhook
      status := .error
      error := some "no_images"
      missing_images := [] }
  else
    { lot_id := lot.lot_id.getD ("lot_" ++ toString i)
      image_urls := urls
      additional_info := some (lot.additional_info.getD "")
      webhook := lot.webhook
      status := .pending
      error := none
      missing_images := [] }

/-- The enumerate loop of `BatchProcessor.create_batch_job` over the
input lots, including its creation-budget check: at every index
divisible by 100 the source compares the elapsed wall time against the
15-second maximum and breaks out of the loop when exceeded, silently
dropping all remaining input lots.  The wall clock is abstracted as the
predicate `overBudget i`: whether time.time() - start_time exceeded the
budget at the check for index `i`. -/
def processLots (overBudget : Nat → Bool) : Nat → List InputLot → List ProcessedLot
  | _, [] => []
  | i, l :: ls =>
    if i % 100 == 0 && overBudget i then []
    else processLot i l :: processLots overBudget (i + 1) ls

/-- The processing loop specialised to a run whose creation-budget check
never fires; `processLots_eq_NB` shows `processLots` collapses to it
under that assumption (proof-internal auxiliary). -/
def processLotsNB : Nat → List InputLot → List ProcessedLot
  | _, [] => []
  | i, l :: ls => processLot i l :: processLotsNB (i + 1) ls

/-- One line of the vision batch file: the custom id and the prompt. -/
structure VisionRequest where
  custom_id : String
  input : String
deriving DecidableEq, Repr

/-- The numbered image list embedded in the vision prompt. -/
def imageListText (urls : List String) : String :=
  String.intercalate "\n"
    (urls.enum.map (fun p => "Image " ++ toString (p.1 + 1) ++ ": " ++ p.2))

/-- The vision prompt text built per lot by
`BatchProcessor.create_batch_job`. -/
def visionInputText (lot : ProcessedLot) : String :=
  "Analyze these car images and provide a detailed damage assessment.\n\nAdditional info: "
    ++ lot.additional_info.getD "" ++ "\n\nProvided images:\n"
    ++ imageListText lot.image_urls
    ++ "\n\nNote: Analyze based on the context provided above."

/-- The vision request list of `BatchProcessor.create_batch_job`: one
request per processed lot that is not in error, with custom id
`vision:` followed by the lot id. -/
def visionRequests (plots : List ProcessedLot) : List VisionRequest :=
  (plots.filter (fun l => decide (l.status ≠ .error))).map (fun l =>
    { custom_id := "vision:" ++ l.lot_id, input := visionInputText l })

/-- The `BatchLot` row built from a processed-lot dict by
`DatabaseManager.create_batch_job` (which reads only lot_id,
additional_info, image_urls and status, so the per-lot error reason and
webhook of an errored lot are dropped). -/
def toBatchLot (l : ProcessedLot) : BatchLot :=
  { lot_id := l.lot_id
    image_urls := l.image_urls
    status := l.status
    vision_result := none
    translations := []
    error_message := none
    missing_images := [] }

/-- The vision batch id recorded on the job during creation: absent when
there was nothing to submit or when the submission raised. -/
def createdVisionBatchId (submit : Except String String)
    (reqs : List VisionRequest) : Option String :=
  if reqs.isEmpty then none
  else
    match submit with
    | .ok bid => some bid
    | .error _ => none

/-- The job_data dict assembled by `BatchProcessor.create_batch_job` and
handed to `DatabaseManager.create_batch_job`: it carries the submitted
batch id under the openai_batch_id key, the processed lots, and, on a
failed submission, the error message Batch submission failed. -/
structure JobData where
  job_id : String
  status : JobStatus
  languages : List String
  openai_batch_id : Option String
  lots : List ProcessedLot
  error_message : Option String
deriving DecidableEq, Repr

/-- The job_data dict built at the end of
`BatchProcessor.create_batch_job`. -/
def processorJobData (submit : Except String String)
    (overBudget : Nat → Bool) (job_id : String) (lots : List InputLot)
    (languages : List String) : JobData :=
  let plots := processLots overBudget 0 lots
  let vision_batch_id := createdVisionBatchId submit (visionRequests plots)
  { job_id := job_id
    status := if vision_batch_id.isSome then .processing else .failed
    languages := languages
    openai_batch_id := vision_batch_id
    lots := plots
    error_message :=
      if vision_batch_id.isSome then none else some "Batch submission failed" }

/-- `DatabaseManager.create_batch_job`: constructs the `BatchJob` row
reading the status, openai_batch_id, openai_vision_batch_id, languages,
webhook_url and lots keys of job_data.  The error_message key of
job_data is never read, so the column keeps its NULL default; the dict
built by the processor also has no webhook_url or
openai_vision_batch_id keys, so those columns stay NULL too. -/
def dbCreateBatchJob (jd : JobData) (now : Nat) : Job :=
  { id := jd.job_id
    status := jd.status
    created_at := now
    languages := jd.languages
    webhook_url := none
    openai_batch_id := jd.openai_batch_id
    openai_vision_batch_id := none
    openai_translation_batch_id := none
    total_lots := jd.lots.length
    processed_lots := 0
    failed_lots := 0
    error_message := none
    lots := jd.lots.map toBatchLot }

/-- The `BatchJob` row persisted for one create call: the processor dict
passed through the row constructor. -/
def createdJob (submit : Except String String) (overBudget : Nat → Bool)
    (job_id : String) (lots : List InputLot) (languages : List String)
    (now : Nat) : Job :=
  dbCreateBatchJob (processorJobData submit overBudget job_id lots languages) now

/-- `DatabaseManager.get_batch_job`: first row with the given id. -/
def get_batch_job (store : List Job) (job_id : String) : Option Job :=
  store.find? (fun j => j.id == job_id)

/-- Everything `BatchProcessor.create_batch_job` produces: the returned
job id, the store after `DatabaseManager.create_batch_job`, and the
remote requests submitted. -/
structure CreateResult where
  job_id : String
  store : List Job
  vision_requests : List VisionRequest
deriving DecidableEq, Repr

/-- `BatchProcessor.create_batch_job` followed by
`DatabaseManager.create_batch_job`.  `submit` is the outcome of
`submit_batch_job` (an ok batch id, or the raised error, in which case
the job is still created as failed); `fileSizeOk` is the outcome of the
MAX_FILE_BYTES estimate, which depends on serialized byte counts not
modelled here and is only consulted when there are requests to submit.
An `Except.error` result models a ValueError reaching the caller with no
job record created. -/
def create_batch_job (submit : Except String String) (fileSizeOk : Bool)
    (overBudget : Nat → Bool) (job_id : String) (lots : List InputLot)
    (languages : List String) (now : Nat) (store : List Job) :
    Except String CreateResult :=
  if lots.length > MAX_LINES then .error "Too many lots"
  else if (visionRequests (processLots overBudget 0 lots)).isEmpty = false ∧
      fileSizeOk = false then
    .error "Estimated batch file too large"
  else
    .ok { job_id := job_id
          store := store ++ [createdJob submit overBudget job_id lots languages now]
          vision_requests := visionRequests (processLots overBudget 0 lots) }

/-! ### Completion webhook payload (WebhookSender.send_completion_webhook) -/

/-- JSON value as used by the completion payload (strings and numbers
only appear there). -/
inductive PayloadVal
  | str (s : String)
  | num (n : Nat)
deriving DecidableEq, Repr

/-- Job status as serialized into the payload. -/
def statusString : JobStatus → String
  | .pending => "pending"
  | .processing => "processing"
  | .translating => "translating"
  | .completed => "completed"
  | .failed => "failed"
  | .cancelled => "cancelled"

/-- The payload dict built by `WebhookSender.send_completion_webhook`,
fields in source order. -/
def completion_payload (job : Job) (now : Nat) : List (String × PayloadVal) :=
  [("job_id", .str job.id),
   ("status", .str (statusString job.status)),
   ("timestamp", .num now),
   ("total_lots", .num job.total_lots),
   ("completed_lots", .num job.processed_lots),
   ("failed_lots", .num job.failed_lots),
   ("result_url", .str ("/api/v1/batch-results/" ++ job.id))]

/-- The HTTP headers attached by `WebhookSender._attempt_delivery`. -/
def webhook_headers (signature : String) : List (String × String) :=
  [("Content-Type", "application/json"),
   ("X-Signature", signature),
   ("User-Agent", "Generation-Service-Webhook/1.0")]

/-- `WebhookSender.send_completion_webhook` up to the first delivery
attempt: looks the job up, bails out when it is missing or has no
truthy webhook URL, and otherwise builds the payload, signs it (`sign`
abstracts the HMAC-SHA256 over the canonical JSON serialization) and
creates the delivery record. -/
def send_completion_webhook (sign : List (String × PayloadVal) → String)
    (store : List Job) (job_id : String) (now : Nat) :
    Option (List (String × PayloadVal) × Delivery) :=
  match get_batch_job store job_id with
  | none => none
  | some job =>
    if pyTruthy job.webhook_url = false then none
    else
      let payload := completion_payload job now
      some (payload,
        create_delivery_record job_id (job.webhook_url.getD "") (sign payload) now)

/-! ### Job store updates (DatabaseManager) -/

/-- Update the first list element satisfying `p`, as a SQLAlchemy
filter-first-mutate-commit does. -/
def updateFirst {α : Type} (p : α → Bool) (f : α → α) : List α → List α
  | [] => []
  | a :: as => if p a then f a :: as else a :: updateFirst p f as

/-- `DatabaseManager.update_batch_job_status`: sets the status, and the
error message only when the given message is truthy. -/
def update_batch_job_status (store : List Job) (job_id : String)
    (status : JobStatus) (error_message : Option String) : List Job :=
  updateFirst (fun j => j.id == job_id)
    (fun j => { j with
      status := status
      error_message :=
        if pyTruthy error_message then error_message else j.error_message })
    store

/-- `DatabaseManager.update_batch_job_openai_id` with batch_type
translation (`isTranslation = true`) or vision. -/
def update_batch_job_openai_id (store : List Job) (job_id : String)
    (batch_id : String) (isTranslation : Bool) : List Job :=
  updateFirst (fun j => j.id == job_id)
    (fun j =>
      if isTranslation then { j with openai_translation_batch_id := some batch_id }
      else { j with openai_vision_batch_id := some batch_id })
    store

/-! ### Result finalization (BatchMonitor + DatabaseManager.save_batch_results) -/

/-- One element of the lots array of the results_data dict built by
`BatchMonitor._finalize_job_results`. -/
structure LotResultData where
  lot_id : String
  status : LotStatus
  vision_result : Option String
  translations : List (String × String)
  error_message : Option String
  missing_images : List String
deriving DecidableEq, Repr

/-- The per-lot dict of `BatchMonitor._finalize_job_results`: a plain
copy of the current row fields (vision_result may well be NULL). -/
def finalizeLotResult (lot : BatchLot) : LotResultData :=
  { lot_id := lot.lot_id
    status := lot.status
    vision_result := lot.vision_result
    translations := lot.translations
    error_message := lot.error_message
    missing_images := lot.missing_images }

/-- The per-entry lot update of `DatabaseManager.save_batch_results`: the
first row matching the entry is set to completed unconditionally and its
vision_result and translations are overwritten from the entry. -/
def applyLotResult (lots : List BatchLot) (lr : LotResultData) : List BatchLot :=
  updateFirst (fun l => l.lot_id == lr.lot_id)
    (fun l => { l with
      status := .completed
      vision_result := lr.vision_result
      translations := lr.translations })
    lots

/-- `DatabaseManager.save_batch_results` restricted to the job it
updates: applies every lot entry, recomputes the progress counters from
the entry statuses, and marks the job completed. -/
def save_batch_results (job : Job) (lotsData : List LotResultData) : Job :=
  { job with
    lots := lotsData.foldl applyLotResult job.lots
    processed_lots := (lotsData.filter (fun l => decide (l.status = .completed))).length
    failed_lots := (lotsData.filter (fun l => decide (l.status = .failed))).length
    status := .completed }

/-- `BatchMonitor._finalize_job_results`: builds the results_data lots
array from the current rows and hands it to save_batch_results. -/
def finalize_job_results (job : Job) : Job :=
  save_batch_results job (job.lots.map finalizeLotResult)

/-- The per-lot update of `BatchMonitor._save_vision_results`: a truthy
extracted text stores the vision result and moves the lot to processing
(to be completed after translations); anything else fails the lot with a
diagnostic message. -/
def applyVisionText (lot : BatchLot) (vision_text : String) : BatchLot :=
  if vision_text ≠ "" then
    { lot with vision_result := some vision_text, status := .processing }
  else
    { lot with status := .failed, error_message := some "No valid vision result" }

/-- Python dict update for the translations mapping: replace the entry
for the language in place or append it. -/
def setTranslation : List (String × String) → String → String → List (String × String)
  | [], lang, text => [(lang, text)]
  | (l, t) :: rest, lang, text =>
    if l == lang then (l, text) :: rest else (l, t) :: setTranslation rest lang text

/-- The merge step of `BatchMonitor._save_translation_results` for one
lot and one parsed translation: merged only when the text is truthy. -/
def applyTranslation (lot : BatchLot) (language text : String) : BatchLot :=
  if text ≠ "" then
    { lot with translations := setTranslation lot.translations language text }
  else lot

/-- The completion-marking pass at the end of
`BatchMonitor._save_translation_results`: every lot with a truthy
vision_result is marked completed, the others are left alone. -/
def markLotsWithVision (lots : List BatchLot) : List BatchLot :=
  lots.map (fun lot =>
    if pyTruthy lot.vision_result then { lot with status := .completed } else lot)

/-! ### Scheduler selection and monitor dispatch (C1) -/

/-- `DatabaseManager.get_active_batch_jobs`: the reconciliation pass of
the scheduler loop monitors exactly the jobs whose status is pending,
processing or failed and which hold some remote batch reference. -/
def get_active_batch_jobs (store : List Job) : List Job :=
  store.filter (fun j =>
    decide (j.status = .pending ∨ j.status = .processing ∨ j.status = .failed) &&
    (j.openai_vision_batch_id.isSome || j.openai_translation_batch_id.isSome))

/-- The dispatch of `BatchMonitor._check_job_status`: which remote batch
(if any) it polls for a given job. -/
def check_job_status_polls (j : Job) : Option String :=
  if pyTruthy j.openai_vision_batch_id = true ∧ (j.status = .processing ∨ j.status = .failed) then
    j.openai_vision_batch_id
  else if pyTruthy j.openai_translation_batch_id = true ∧ (j.status = .translating ∨ j.status = .failed) then
    j.openai_translation_batch_id
  else none

/-- One scheduler tick: `_check_active_batches` selects via
`get_active_batch_jobs` and dispatches `_check_job_status` on each
selected job; this is the list of remote batches polled that tick. -/
def monitor_polled_batches (store : List Job) : List String :=
  (get_active_batch_jobs store).filterMap check_job_status_polls

/-! ### Vision custom_id round trip (C8) -/

/-- Python str.split at every colon, on the character list of the
custom id, as `BatchMonitor._save_vision_results` does. -/
def splitOnColon : List Char → List (List Char)
  | [] => [[]]
  | c :: cs =>
    if c = ':' then [] :: splitOnColon cs
    else
      match splitOnColon cs with
      | r :: rs => (c :: r) :: rs
      | [] => [[c]]

/-- Python str.startswith on character lists. -/
def listStartsWith : List Char → List Char → Bool
  | [], _ => true
  | _ :: _, [] => false
  | p :: ps, c :: cs => p == c && listStartsWith ps cs

/-- The vision custom id built at submission by
`BatchProcessor.create_batch_job`: the characters of vision-colon
followed by the lot id. -/
def mk_vision_custom_id (lot_id : List Char) : List Char :=
  "vision:".data ++ lot_id

/-- The custom-id parsing of `BatchMonitor._save_vision_results`: after
the prefix check, split at every colon; two parts mean the new format
(lot id is part 1), three or more parts mean the old
vision-job-lot format (lot id is part 2), fewer are invalid. -/
def parse_vision_lot_id (custom_id : List Char) : Option (List Char) :=
  if listStartsWith "vision:".data custom_id then
    match splitOnColon custom_id with
    | [_, lot] => some lot
    | _ :: _ :: lot :: _ => some lot
    | _ => none
  else none

/-! ### Inline status polling (BatchProcessor.check_batch_status, C9) -/

/-- The remote-side observations consumed by one
`check_batch_status` call: the vision and translation batch statuses
reported by `get_batch_status`, the vision results as already-parsed
(lot id, text) pairs (download and json parsing abstracted), and the
outcome of the translation batch submission. -/
structure RemoteOracle where
  visionRemote : RemoteStatus
  parsedVision : List (String × String)
  submitTranslation : Except String String
  translationRemote : RemoteStatus
deriving Repr

/-- The status dict returned by `BatchProcessor.check_batch_status`. -/
structure Snapshot where
  job_id : String
  status : JobStatus
  created_at : Nat
  error : Option String
deriving DecidableEq, Repr

/-- Python str.lower via the character list. -/
def strToLower (s : String) : String :=
  String.mk (s.data.map Char.toLower)

/-- `BatchProcessor._process_vision_results` as invoked from
`check_batch_status`: with parsed results and non-English target
languages it submits the translation batch and moves the job to
translating; a raised submission error is caught by its own handler,
which fails the job; otherwise the job completes.  (The lot rows are not
written by this code path.) -/
def processor_process_vision_results (o : RemoteOracle) (store : List Job)
    (job_id : String) : List Job :=
  match get_batch_job store job_id with
  | none => store
  | some job =>
    let translation_languages := job.languages.filter (fun l => decide (strToLower l ≠ "en"))
    if translation_languages ≠ [] ∧ o.parsedVision ≠ [] then
      match o.submitTranslation with
      | .ok tbid =>
        update_batch_job_status
          (update_batch_job_openai_id store job_id tbid true)
          job_id .translating none
      | .error e =>
        update_batch_job_status store job_id .failed
          (some ("Vision results processing failed: " ++ e))
    else
      update_batch_job_status store job_id .completed none

/-- `BatchProcessor.check_batch_status`: fetches the job, polls the
vision batch inline when the job is processing with a batch id (applying
the resulting transitions), then polls the translation batch inline when
the now-current job is translating with a translation id, and finally
returns the status snapshot of the now-current job together with the
updated store. -/
def check_batch_status (o : RemoteOracle) (store : List Job)
    (job_id : String) : Option Snapshot × List Job :=
  match get_batch_job store job_id with
  | none => (none, store)
  | some job =>
    let store1 :=
      if pyTruthy job.openai_batch_id = true ∧ job.status = .processing then
        match o.visionRemote with
        | .completed => processor_process_vision_results o store job_id
        | .failed =>
          update_batch_job_status store job_id .failed
            (some "Vision batch processing failed")
        | _ => store
      else store
    let store2 :=
      match get_batch_job store1 job_id with
      | some job1 =>
        if pyTruthy job1.openai_translation_batch_id = true ∧ job1.status = .translating then
          match o.translationRemote with
          | .completed => update_batch_job_status store1 job_id .completed none
          | .failed =>
            update_batch_job_status store1 job_id .failed
              (some "Translation batch processing failed")
          | _ => store1
        else store1
      | none => store1
    match get_batch_job store2 job_id with
    | some job2 =>
      (some { job_id := job_id, status := job2.status,
              created_at := job2.created_at, error := job2.error_message },
        store2)
    | none => (none, store2)

/-! ### Concrete records used by counterexamples and code-bug evaluations -/

/-- A job sitting in translating with a live translation batch. -/
def translatingJob : Job :=
  { id := "job-1t"
    status := .translating
    created_at := 0
    languages := ["en", "fr"]
    webhook_url := some "https://cb.example/h"
    openai_batch_id := none
    openai_vision_batch_id := none
    openai_translation_batch_id := some "batch-t"
    total_lots := 1
    processed_lots := 0
    failed_lots := 0
    error_message := none
    lots := [] }

/-- A completed job with a webhook URL, as handed to
`send_completion_webhook`. -/
def completedWebhookJob : Job :=
  { id := "job-2c"
    status := .completed
    created_at := 0
    languages := ["en"]
    webhook_url := some "https://cb.example/h"
    openai_batch_id := some "vb"
    openai_vision_batch_id := none
    openai_translation_batch_id := none
    total_lots := 1
    processed_lots := 1
    failed_lots := 0
    error_message := none
    lots := [] }

/-- A pending lot before any vision result arrives. -/
def pendingLotA : BatchLot :=
  { lot_id := "A"
    image_urls := ["u1"]
    status := .pending
    vision_result := none
    translations := []
    error_message := none
    missing_images := [] }

/-- The same lot after `_save_vision_results` failed to extract any text
for it. -/
def failedLotA : BatchLot := applyVisionText pendingLotA ""

/-- A job holding only that failed lot, about to be finalized. -/
def failedLotJob : Job :=
  { id := "job-3f"
    status := .translating
    created_at := 0
    languages := ["en", "fr"]
    webhook_url := none
    openai_batch_id := none
    openai_vision_batch_id := some "vb3"
    openai_translation_batch_id := some "tb3"
    total_lots := 1
    processed_lots := 0
    failed_lots := 1
    error_message := none
    lots := markLotsWithVision [failedLotA] }

/-- A processing job with a vision batch id, as queried by
`check_batch_status`. -/
def processingJob9 : Job :=
  { id := "job-9"
    status := .processing
    created_at := 5
    languages := ["en"]
    webhook_url := none
    openai_batch_id := some "vb9"
    openai_vision_batch_id := none
    openai_translation_batch_id := none
    total_lots := 1
    processed_lots := 0
    failed_lots := 0
    error_message := none
    lots := [] }

/-- An oracle reporting the vision batch as failed remotely. -/
def failedVisionOracle : RemoteOracle :=
  { visionRemote := .failed
    parsedVision := []
    submitTranslation := .error "unused"
    translationRemote := .queued }

/-- A wall clock that never exceeds the creation budget. -/
def noBudgetBreak : Nat → Bool := fun _ => false

/-- A wall clock that exceeds the 15-second creation budget from the
check at index 100 onwards. -/
def budgetExceededFrom100 : Nat → Bool := fun i => decide (100 ≤ i)

/-- A single valid input lot with one image. -/
def lotA6 : InputLot :=
  { lot_id := some "A"
    additional_info := none
    images := [{ url := some "u" }]
    webhook := none }

/-- The input lot replicated by the truncation counterexample. -/
def plainLot : InputLot :=
  { lot_id := some "X"
    additional_info := none
    images := [{ url := some "u" }]
    webhook := none }

/-- A zero-image lot next to a valid one. -/
def lotsBC : List InputLot :=
  [{ lot_id := some "B", additional_info := none, images := [], webhook := none },
   { lot_id := some "C", additional_info := none,
     images := [{ url := some "u" }], webhook := none }]

theorem update_delivery_status_attempt_count (d : Delivery)
    (status : DeliveryStatus) (now : Nat) (rs : Option Nat)
    (rb em : Option String) :
    (update_delivery_status d status now rs rb em).attempt_count =
      d.attempt_count + 1 := by
  simp only [update_delivery_status]
  split <;> split <;> repeat' first | split | rfl

theorem update_delivery_status_status (d : Delivery)
    (status : DeliveryStatus) (now : Nat) (rs : Option Nat)
    (rb em : Option String) :
    (update_delivery_status d status now rs rb em).status = status := by
  simp only [update_delivery_status]
  split <;> split <;> repeat' first | split | rfl

theorem attempt_delivery_attempt_count (d : Delivery) (outcome : Option Nat)
    (body : String) (now : Nat) :
    (attempt_delivery d outcome body now).attempt_count =
      d.attempt_count + 1 := by
  unfold attempt_delivery
  cases outcome with
  | none => exact update_delivery_status_attempt_count ..
  | some code =>
    by_cases h : 200 ≤ code ∧ code < 300 <;>
      simp [h, update_delivery_status_attempt_count]

theorem delivery_selectable_count_lt (now : Nat) (d : Delivery)
    (h : delivery_selectable now d = true) : d.attempt_count < 5 := by
  unfold delivery_selectable at h
  simp only [Bool.and_eq_true, decide_eq_true_eq] at h
  exact h.1.2

theorem delivery_selectable_false_of_ge (now : Nat) (d : Delivery)
    (h : 5 ≤ d.attempt_count) : delivery_selectable now d = false := by
  unfold delivery_selectable
  have hb : decide (d.attempt_count < 5) = false := by
    simp only [decide_eq_false_iff_not]
    omega
  simp [hb]

/-- C4: along every delivery history driven by the WebhookSender
operations, `attempt_count` never exceeds the maximum of 5; and once a
delivery is `failed` with `attempt_count` at least 5, the retry
scheduler filter rejects it at every time and the guard of either
attempt rule is unsatisfiable, so no further attempt is ever made. -/
theorem delivery_attempts_bounded_and_failed_terminal (d : Delivery)
    (h : DeliveryReachable d) :
    d.attempt_count ≤ 5 ∧
      (d.status = .failed → 5 ≤ d.attempt_count →
        ∀ now, delivery_selectable now d = false ∧ d.attempt_count ≠ 0) := by
  induction h with
  | create job_id webhook_url signature now =>
    refine ⟨by simp [create_delivery_record], ?_⟩
    intro _ h5
    simp [create_delivery_record] at h5
  | firstAttempt outcome body now _ h0 ih =>
    rw [attempt_delivery_attempt_count, h0]
    exact ⟨by omega, fun _ h5 => by omega⟩
  | scheduledAttempt outcome body now _ hsel ih =>
    have hlt := delivery_selectable_count_lt now _ hsel
    rw [attempt_delivery_attempt_count]
    refine ⟨by omega, fun _ h5 now' => ?_⟩
    refine ⟨delivery_selectable_false_of_ge now' _ ?_, by omega⟩
    rw [attempt_delivery_attempt_count]
    omega

/-- Closed witness for C4: the theorem applied to a freshly created
delivery record. -/
theorem delivery_attempts_bounded_and_failed_terminal_witness :
    (create_delivery_record "job-1" "https://cb.example/h" "sig" 0).attempt_count ≤ 5 ∧
      ((create_delivery_record "job-1" "https://cb.example/h" "sig" 0).status = .failed →
        5 ≤ (create_delivery_record "job-1" "https://cb.example/h" "sig" 0).attempt_count →
        ∀ now, delivery_selectable now (create_delivery_record "job-1" "https://cb.example/h" "sig" 0) = false ∧
          (create_delivery_record "job-1" "https://cb.example/h" "sig" 0).attempt_count ≠ 0) :=
  delivery_attempts_bounded_and_failed_terminal _
    (DeliveryReachable.create "job-1" "https://cb.example/h" "sig" 0)

/-- C5: a failed attempt whose resulting attempt_count is still below the
maximum reschedules the delivery at `now + 2 ^ attempt_count` seconds
(the base delay of one second times two to the attempt count); the delay
is bounded by the 16-second value reached at the last retryable attempt,
grows strictly with the attempt count, and the new `next_attempt_at` is
strictly later than the previously scheduled one. -/
theorem retry_backoff_exponential (d : Delivery) (now : Nat)
    (rs : Option Nat) (rb em : Option String)
    (hc : d.attempt_count + 1 < 5) :
    (update_delivery_status d .failed now rs rb em).next_attempt_at =
        some (now + 2 ^ (d.attempt_count + 1)) ∧
      2 ^ (d.attempt_count + 1) ≤ 16 ∧
      2 ^ d.attempt_count < 2 ^ (d.attempt_count + 1) ∧
      (∀ t, d.next_attempt_at = some t → t ≤ now →
        t < now + 2 ^ (d.attempt_count + 1)) := by
  refine ⟨?_, ?_, ?_, ?_⟩
  · cases rs <;> by_cases h1 : pyTruthy rb <;> by_cases h2 : pyTruthy em <;>
      simp [update_delivery_status, hc, h1, h2]
  · calc 2 ^ (d.attempt_count + 1) ≤ 2 ^ 4 :=
          Nat.pow_le_pow_right (by norm_num) (by omega)
      _ = 16 := by norm_num
  · exact Nat.pow_lt_pow_right (by norm_num) (Nat.lt_succ_self _)
  · intro t _ hle
    have hpos : 0 < 2 ^ (d.attempt_count + 1) := Nat.pos_pow_of_pos _ (by norm_num)
    omega

/-- Closed witness for C5: a delivery on its second failed attempt. -/
theorem retry_backoff_exponential_witness :
    (update_delivery_status
        (create_delivery_record "job-2" "https://cb.example/h" "sig" 0)
        .failed 7 (some 500) none (some "HTTP 500")).next_attempt_at =
      some (7 + 2 ^ ((create_delivery_record "job-2" "https://cb.example/h" "sig" 0).attempt_count + 1)) ∧
    2 ^ ((create_delivery_record "job-2" "https://cb.example/h" "sig" 0).attempt_count + 1) ≤ 16 ∧
    2 ^ (create_delivery_record "job-2" "https://cb.example/h" "sig" 0).attempt_count <
      2 ^ ((create_delivery_record "job-2" "https://cb.example/h" "sig" 0).attempt_count + 1) ∧
    (∀ t, (create_delivery_record "job-2" "https://cb.example/h" "sig" 0).next_attempt_at = some t →
      t ≤ 7 → t < 7 + 2 ^ ((create_delivery_record "job-2" "https://cb.example/h" "sig" 0).attempt_count + 1)) :=
  retry_backoff_exponential
    (create_delivery_record "job-2" "https://cb.example/h" "sig" 0)
    7 (some 500) none (some "HTTP 500") (by decide)

/-- C10: if any single non-blank line of the downloaded batch-results
content fails to decode as JSON, `_parse_batch_results` returns the
empty list, discarding every line that had already parsed. -/
theorem malformed_line_discards_all {R : Type} (decode : String → Option R)
    (lines : List String) (l : String) (hmem : l ∈ lines)
    (hne : isBlankLine l = false) (hfail : decode l = none) :
    parse_batch_results decode lines = [] := by
  suffices h : parseLines decode lines = none by
    simp [parse_batch_results, h]
  induction lines with
  | nil => cases hmem
  | cons a as ih =>
    by_cases ha : isBlankLine a = true
    · have hl : l ∈ as := by
        rcases List.mem_cons.mp hmem with rfl | h
        · rw [hne] at ha; cases ha
        · exact h
      simp [parseLines, ha, ih hl]
    · simp only [parseLines, if_neg ha]
      rcases List.mem_cons.mp hmem with rfl | hl
      · rw [hfail]
      · cases hd : decode a with
        | none => rfl
        | some r => rw [ih hl]; rfl

/-- Closed witness for C10: one good line followed by one malformed line
yields no results at all. -/
theorem malformed_line_discards_all_witness :
    parse_batch_results decodeDigitOne ["1", "oops"] = [] :=
  malformed_line_discards_all decodeDigitOne ["1", "oops"] "oops"
    (by simp) (by decide) rfl

/-- C1 (code bug): the monitor dispatch `_check_job_status` does poll the
translation batch of a job in translating, but the selection query
`get_active_batch_jobs` filters on status pending, processing or failed,
so a scheduler tick never reaches such a job and its translation batch
is never polled. -/
theorem translating_job_never_polled :
    check_job_status_polls translatingJob = some "batch-t" ∧
      get_active_batch_jobs [translatingJob] = [] ∧
      monitor_polled_batches [translatingJob] = [] := by
  decide

/-- C3 (code bug): a lot whose vision extraction failed is left failed
with a NULL vision_result by `_save_vision_results`, is deliberately
skipped by the completion-marking pass of `_save_translation_results`,
and is then marked completed anyway by
`_finalize_job_results`/`save_batch_results`, which copies the NULL
vision_result back — leaving a completed lot with no vision result. -/
theorem finalize_completes_lot_without_vision_result :
    failedLotA.status = .failed ∧ failedLotA.vision_result = none ∧
      (markLotsWithVision [failedLotA]).map (fun l => l.status) = [.failed] ∧
      (finalize_job_results failedLotJob).status = .completed ∧
      (finalize_job_results failedLotJob).lots.map
          (fun l => (l.status, l.vision_result)) = [(.completed, none)] := by
  decide

/-- C2 counterexample: for a completed job with a webhook URL,
`send_completion_webhook` does build and sign a payload, but that
payload has no lots key (and no completed_at key) — the claimed per-lot
descriptions array is absent from the POST body. -/
theorem completion_payload_has_no_lots_array :
    (send_completion_webhook (fun _ => "sig") [completedWebhookJob] "job-2c" 99).isSome = true ∧
      "lots" ∉ (completion_payload completedWebhookJob 99).map Prod.fst ∧
      "completed_at" ∉ (completion_payload completedWebhookJob 99).map Prod.fst := by
  decide

/-- C2 amended: for every job with a truthy webhook URL, the webhook POST
body is the flat summary with keys job_id, status, timestamp,
total_lots, completed_lots, failed_lots and result_url — no lots array;
per-lot descriptions are fetched through result_url — and the HMAC
signature of the payload is carried by the X-Signature header of the
delivery attempt. -/
theorem completion_webhook_payload_shape (sign : List (String × PayloadVal) → String)
    (store : List Job) (job_id : String) (now : Nat)
    (payload : List (String × PayloadVal)) (d : Delivery)
    (h : send_completion_webhook sign store job_id now = some (payload, d)) :
    payload.map Prod.fst =
        ["job_id", "status", "timestamp", "total_lots", "completed_lots",
         "failed_lots", "result_url"] ∧
      "lots" ∉ payload.map Prod.fst ∧
      d.signature = sign payload ∧
      ("X-Signature", d.signature) ∈ webhook_headers d.signature := by
  unfold send_completion_webhook at h
  cases hfind : get_batch_job store job_id with
  | none => rw [hfind] at h; cases h
  | some job =>
    rw [hfind] at h
    dsimp only at h
    by_cases hw : pyTruthy job.webhook_url = false
    · rw [if_pos hw] at h; cases h
    · rw [if_neg hw] at h
      injection h with h
      injection h with h1 h2
      subst h1; subst h2
      have hkeys : (completion_payload job now).map Prod.fst =
          ["job_id", "status", "timestamp", "total_lots", "completed_lots",
           "failed_lots", "result_url"] := rfl
      refine ⟨hkeys, ?_, rfl, by simp [webhook_headers]⟩
      rw [hkeys]
      decide

/-- Closed witness for C2: the amended payload shape at a concrete
completed job. -/
theorem completion_webhook_payload_shape_witness :
    (completion_payload completedWebhookJob 99).map Prod.fst =
        ["job_id", "status", "timestamp", "total_lots", "completed_lots",
         "failed_lots", "result_url"] ∧
      "lots" ∉ (completion_payload completedWebhookJob 99).map Prod.fst ∧
      (create_delivery_record "job-2c" "https://cb.example/h" "sig" 99).signature = "sig" ∧
      ("X-Signature", (create_delivery_record "job-2c" "https://cb.example/h" "sig" 99).signature) ∈
        webhook_headers (create_delivery_record "job-2c" "https://cb.example/h" "sig" 99).signature :=
  completion_webhook_payload_shape (fun _ => "sig") [completedWebhookJob]
    "job-2c" 99 (completion_payload completedWebhookJob 99)
    (create_delivery_record "job-2c" "https://cb.example/h" "sig" 99) rfl

theorem splitOnColon_no_colon (l : List Char) (h : ∀ c ∈ l, c ≠ ':') :
    splitOnColon l = [l] := by
  induction l with
  | nil => rfl
  | cons a as ih =>
    have ha : a ≠ ':' := h a (List.mem_cons_self a as)
    have has : splitOnColon as = [as] := ih (fun c hc => h c (List.mem_cons_of_mem a hc))
    simp [splitOnColon, ha, has]

theorem splitOnColon_append_no_colon (xs ys : List Char)
    (h : ∀ c ∈ xs, c ≠ ':') (r : List Char) (rs : List (List Char))
    (hy : splitOnColon ys = r :: rs) :
    splitOnColon (xs ++ ys) = (xs ++ r) :: rs := by
  induction xs with
  | nil => simpa using hy
  | cons a as ih =>
    have ha : a ≠ ':' := h a (List.mem_cons_self a as)
    have has := ih (fun c hc => h c (List.mem_cons_of_mem a hc))
    simp [splitOnColon, ha, has]

theorem splitOnColon_colon_cons (l : List Char) :
    splitOnColon (':' :: l) = [] :: splitOnColon l := by
  simp [splitOnColon]

theorem listStartsWith_append (p rest : List Char) :
    listStartsWith p (p ++ rest) = true := by
  induction p with
  | nil => rfl
  | cons a as ih => simp [listStartsWith, ih]

/-- C8 counterexample: a lot id containing the colon delimiter does not
round-trip: building the custom id for lot id a-colon-b and parsing it
back yields b, because the three-part shape is taken for the old
vision-job-lot format. -/
theorem vision_custom_id_roundtrip_counterexample :
    parse_vision_lot_id (mk_vision_custom_id "a:b".data) = some "b".data ∧
      some "b".data ≠ some "a:b".data := by
  decide

/-- C8 amended: the vision custom id round-trips exactly for lot ids
free of the colon delimiter: for every such lot id, parsing the built
custom id returns the original lot id. -/
theorem vision_custom_id_roundtrip (lot_id : List Char)
    (h : ∀ c ∈ lot_id, c ≠ ':') :
    parse_vision_lot_id (mk_vision_custom_id lot_id) = some lot_id := by
  have hmk : mk_vision_custom_id lot_id = "vision".data ++ (':' :: lot_id) := by
    show "vision:".data ++ lot_id = "vision".data ++ (':' :: lot_id)
    have h7 : "vision:".data = "vision".data ++ [':'] := by decide
    rw [h7, List.append_assoc]
    rfl
  have hsplit : splitOnColon (mk_vision_custom_id lot_id) =
      ["vision".data, lot_id] := by
    rw [hmk]
    have hy : splitOnColon (':' :: lot_id) = [] :: [lot_id] := by
      rw [splitOnColon_colon_cons, splitOnColon_no_colon lot_id h]
    have := splitOnColon_append_no_colon "vision".data (':' :: lot_id)
      (by decide) [] [lot_id] hy
    simpa using this
  have hpre : listStartsWith "vision:".data (mk_vision_custom_id lot_id) = true :=
    listStartsWith_append "vision:".data lot_id
  unfold parse_vision_lot_id
  rw [if_pos hpre, hsplit]

/-- Closed witness for C8: a colon-free lot id round-trips. -/
theorem vision_custom_id_roundtrip_witness :
    parse_vision_lot_id (mk_vision_custom_id "lot-7".data) = some "lot-7".data :=
  vision_custom_id_roundtrip "lot-7".data (by decide)

theorem processLots_eq_NB (overBudget : Nat → Bool)
    (hb : ∀ i, overBudget i = false) (n : Nat) (ls : List InputLot) :
    processLots overBudget n ls = processLotsNB n ls := by
  induction ls generalizing n with
  | nil => rfl
  | cons a as ih => simp [processLots, processLotsNB, hb, ih]

theorem processLotsNB_length (n : Nat) (ls : List InputLot) :
    (processLotsNB n ls).length = ls.length := by
  induction ls generalizing n with
  | nil => rfl
  | cons a as ih => simp [processLotsNB, ih]

theorem processLot_status (i : Nat) (lot : InputLot) :
    (processLot i lot).status =
      if (lotImageUrls lot).isEmpty then .error else .pending := by
  unfold processLot
  by_cases h : (lotImageUrls lot).isEmpty <;> simp [h]

theorem visionRequests_processLotsNB_length (n : Nat) (ls : List InputLot) :
    (visionRequests (processLotsNB n ls)).length =
      (ls.filter (fun l => !(lotImageUrls l).isEmpty)).length := by
  induction ls generalizing n with
  | nil => rfl
  | cons a as ih =>
    by_cases h : (lotImageUrls a).isEmpty <;>
      simp [processLotsNB, visionRequests, List.filter_cons, processLot_status, h,
        ← ih (n + 1)]

/-- C6 (code bug): when the remote vision batch submission raises, the
job is still created and persisted with status failed, the call returns
the job id and a later lookup observes the failed job — but although
the processor hands DatabaseManager a job_data dict whose error_message
is Batch submission failed, `DatabaseManager.create_batch_job` never
reads that key, so the persisted row keeps a NULL error message and the
recorded-error-message part of the claim fails. -/
theorem failed_submission_error_message_dropped :
    (processorJobData (.error "boom") noBudgetBreak "j6" [lotA6] ["en"]).error_message =
        some "Batch submission failed" ∧
      create_batch_job (.error "boom") true noBudgetBreak "j6" [lotA6] ["en"] 0 [] =
        .ok { job_id := "j6"
              store := [createdJob (.error "boom") noBudgetBreak "j6" [lotA6] ["en"] 0]
              vision_requests :=
                visionRequests (processLots noBudgetBreak 0 [lotA6]) } ∧
      (createdJob (.error "boom") noBudgetBreak "j6" [lotA6] ["en"] 0).status =
        .failed ∧
      (createdJob (.error "boom") noBudgetBreak "j6" [lotA6] ["en"] 0).error_message =
        none ∧
      get_batch_job
          [createdJob (.error "boom") noBudgetBreak "j6" [lotA6] ["en"] 0] "j6" =
        some (createdJob (.error "boom") noBudgetBreak "j6" [lotA6] ["en"] 0) :=
  ⟨rfl, rfl, rfl, rfl, rfl⟩

theorem createdJob_lots_length (submit : Except String String)
    (overBudget : Nat → Bool) (hb : ∀ i, overBudget i = false)
    (job_id : String) (lots : List InputLot) (languages : List String)
    (now : Nat) :
    (createdJob submit overBudget job_id lots languages now).lots.length =
      lots.length := by
  simp [createdJob, dbCreateBatchJob, processorJobData,
    processLots_eq_NB overBudget hb, processLotsNB_length]

theorem processLotsNB_map_status_error (n : Nat) (ls : List InputLot)
    (i : Nat) (hi : i < ls.length) (h : lotImageUrls (ls.get ⟨i, hi⟩) = []) :
    (((processLotsNB n ls).map toBatchLot).get
        ⟨i, by rw [List.length_map, processLotsNB_length]; exact hi⟩).status = .error := by
  induction ls generalizing n i with
  | nil => cases hi
  | cons a as ih =>
    cases i with
    | zero =>
      show (toBatchLot (processLot n a)).status = .error
      have : lotImageUrls a = [] := h
      simp [toBatchLot, processLot_status, this]
    | succ j =>
      exact ih (n + 1) j (Nat.lt_of_succ_lt_succ hi) h

theorem get_status_of_eq (l l2 : List BatchLot) (heq : l = l2) (i : Nat)
    (hi : i < l.length) (hi2 : i < l2.length)
    (hs : (l2.get ⟨i, hi2⟩).status = .error) :
    (l.get ⟨i, hi⟩).status = .error := by
  subst heq
  exact hs

/-- C7 counterexample: with 101 input lots and a wall clock over the
15-second budget at the check for index 100, the creation loop breaks,
the 101st lot is silently dropped (not marked errored), and the created
job has total_lots 100, not the input count 101. -/
theorem total_lots_truncated_counterexample :
    (List.replicate 101 plainLot).length = 101 ∧
      (createdJob (.ok "vb") budgetExceededFrom100 "j7x"
          (List.replicate 101 plainLot) ["en"] 0).total_lots = 100 := by
  constructor
  · decide
  · rfl

/-- C7 amended: on a run whose 15-second creation-budget check never
fires, a successful create call stores a job whose total_lots counts
every input lot, including lots with no usable image URL; each such lot
is persisted with status error, and the submitted vision requests are
exactly one per lot that does have images — none for the errored lots.
(When the budget is exceeded at a check index, the remaining input lots
are silently dropped and total_lots is the length of the processed
prefix.) -/
theorem total_lots_counts_all_input_lots (submit : Except String String)
    (overBudget : Nat → Bool) (job_id : String) (lots : List InputLot)
    (languages : List String) (now : Nat) (store : List Job)
    (hb : ∀ i, overBudget i = false)
    (hlen : lots.length ≤ MAX_LINES) :
    create_batch_job submit true overBudget job_id lots languages now store =
        .ok { job_id := job_id
              store := store ++ [createdJob submit overBudget job_id lots languages now]
              vision_requests := visionRequests (processLots overBudget 0 lots) } ∧
      (createdJob submit overBudget job_id lots languages now).total_lots =
        lots.length ∧
      (∀ i (hi : i < lots.length), lotImageUrls (lots.get ⟨i, hi⟩) = [] →
        ((createdJob submit overBudget job_id lots languages now).lots.get
          ⟨i, by rw [createdJob_lots_length submit overBudget hb]; exact hi⟩).status =
          .error) ∧
      (visionRequests (processLots overBudget 0 lots)).length =
        (lots.filter (fun l => !(lotImageUrls l).isEmpty)).length := by
  refine ⟨?_, ?_, ?_, ?_⟩
  · unfold create_batch_job
    rw [if_neg (by omega), if_neg (by simp)]
  · simp [createdJob, dbCreateBatchJob, processorJobData,
      processLots_eq_NB overBudget hb, processLotsNB_length]
  · intro i hi h
    have heq : (createdJob submit overBudget job_id lots languages now).lots =
        (processLotsNB 0 lots).map toBatchLot := by
      show (processLots overBudget 0 lots).map toBatchLot = _
      rw [processLots_eq_NB overBudget hb]
    exact get_status_of_eq _ _ heq i _
      (by rw [List.length_map, processLotsNB_length]; exact hi)
      (processLotsNB_map_status_error 0 lots i hi h)
  · rw [processLots_eq_NB overBudget hb]
    exact visionRequests_processLotsNB_length 0 lots

/-- Closed witness for C7: a zero-image lot next to a valid one, on a
run where the creation-budget check never fires. -/
theorem total_lots_counts_all_input_lots_witness :
    create_batch_job (.ok "vb7") true noBudgetBreak "j7" lotsBC ["en"] 0 [] =
        .ok { job_id := "j7"
              store := [] ++ [createdJob (.ok "vb7") noBudgetBreak "j7" lotsBC ["en"] 0]
              vision_requests := visionRequests (processLots noBudgetBreak 0 lotsBC) } ∧
      (createdJob (.ok "vb7") noBudgetBreak "j7" lotsBC ["en"] 0).total_lots =
        lotsBC.length ∧
      (∀ i (hi : i < lotsBC.length), lotImageUrls (lotsBC.get ⟨i, hi⟩) = [] →
        ((createdJob (.ok "vb7") noBudgetBreak "j7" lotsBC ["en"] 0).lots.get
          ⟨i, by rw [createdJob_lots_length (.ok "vb7") noBudgetBreak (fun _ => rfl)]; exact hi⟩).status =
          .error) ∧
      (visionRequests (processLots noBudgetBreak 0 lotsBC)).length =
        (lotsBC.filter (fun l => !(lotImageUrls l).isEmpty)).length :=
  total_lots_counts_all_input_lots (.ok "vb7") noBudgetBreak "j7" lotsBC
    ["en"] 0 [] (fun _ => rfl) (by decide)

/-- C9 counterexample: check_batch_status is not side-effect-free — on a
job in processing whose remote vision batch reports failed, the call
rewrites the stored job to failed with an error message, so the store
after the call differs from the store before it. -/
theorem check_batch_status_mutates_state :
    (check_batch_status failedVisionOracle [processingJob9] "job-9").2 ≠
        [processingJob9] ∧
      (get_batch_job (check_batch_status failedVisionOracle [processingJob9]
            "job-9").2 "job-9").map (fun j => (j.status, j.error_message)) =
        some (.failed, some "Vision batch processing failed") := by
  decide

/-- C9 amended: check_batch_status leaves the store unchanged and returns
the read-only snapshot exactly when the job satisfies neither inline
polling guard (a truthy vision batch id with status processing, or a
truthy translation batch id with status translating); when a guard holds
it polls the provider inline and applies state transitions. -/
theorem check_batch_status_readonly_when_not_polling (o : RemoteOracle)
    (store : List Job) (job_id : String) (job : Job)
    (hfind : get_batch_job store job_id = some job)
    (hv : ¬(pyTruthy job.openai_batch_id = true ∧ job.status = .processing))
    (ht : ¬(pyTruthy job.openai_translation_batch_id = true ∧
      job.status = .translating)) :
    check_batch_status o store job_id =
      (some { job_id := job_id, status := job.status,
              created_at := job.created_at, error := job.error_message },
        store) := by
  unfold check_batch_status
  simp only [hfind, if_neg hv, if_neg ht]

/-- Closed witness for C9: a completed job is returned as a snapshot with
the store untouched. -/
theorem check_batch_status_readonly_when_not_polling_witness :
    check_batch_status failedVisionOracle [completedWebhookJob] "job-2c" =
      (some { job_id := "job-2c", status := completedWebhookJob.status,
              created_at := completedWebhookJob.created_at,
              error := completedWebhookJob.error_message },
        [completedWebhookJob]) :=
  check_batch_status_readonly_when_not_polling failedVisionOracle
    [completedWebhookJob] "job-2c" completedWebhookJob rfl
    (by decide) (by decide)

end BachAI
